import Mathlib

/-!
Verification of the stroke-detection backend's consultation ingestion pipeline.

The definitions below are a shallow embedding of the Python source:

* `predict_stroke`            from `app/utils/predict.py`
* `create_consultation`       from `app/routes/consultations.py` (POST handler)
* `get_consultation`          from `app/routes/consultations.py` (GET by id)
* `update_consultation`       from `app/routes/consultations.py` (PUT handler)
* `delete_consultation`       from `app/routes/consultations.py` (DELETE handler)
* `upload_consultation_image` from `app/routes/images.py` (POST upload handler)

Modelling conventions:

* MongoDB ObjectIds are modelled as natural numbers allocated from a
  per-database fresh counter `DB.nextId` (Mongo guarantees uniqueness of
  `_id`); the `validate_object_id` format check and ISO-date parsing are
  abstracted away (ids are already well-formed naturals, dates are opaque
  strings) — no claim under consideration depends on them.
* Python floats are modelled as rationals `ℚ`.
* Timestamps (`datetime.utcnow()`) are modelled as a natural number `now`
  passed in by the caller.
* The Keras model call inside `predict_stroke` is the external Scorer; it is
  a parameter `Env.scorer : Bytes → Except String ℚ` returning the raw
  probability or raising.  Likewise PIL image verification
  (`Env.imageVerify`), GridFS per-blob delete failures
  (`Env.blobDeleteFails`) and failure of the rollback
  `consultations.delete_one` call (`Env.deleteRaises`) are environment
  parameters, since each is an external effect that can fail.
* An exception escaping a FastAPI handler (e.g. when the unguarded rollback
  `delete_one` itself raises inside an `except` block, so the original
  exception is replaced) surfaces to the caller as a 500
  "Internal Server Error" response.
* GridFS blob writes themselves are modelled as always succeeding; the
  claims under consideration exercise Scorer failures and validation
  failures, not blob-write failures.
-/

set_option maxRecDepth 10000

deriving instance DecidableEq for Except

namespace StrokeApp

/-- Raw bytes of an uploaded file. -/
abbrev Bytes := List Nat

/-- An HTTP error response: `HTTPException(status_code, detail)`. -/
structure HTTPError where
  status : Nat
  detail : String
deriving DecidableEq

/-- One uploaded file of the multipart request (`UploadFile`): its
filename, declared content type, and payload bytes. -/
structure UploadFile where
  filename : String
  content_type : String
  content : Bytes
deriving DecidableEq

/-- The dictionary returned by `predict_stroke` (minus the echoed
`threshold_used` field). -/
structure Prediction where
  diagnosis : String
  confidence : ℚ
  probability : ℚ
deriving DecidableEq

/-- `OPTIMAL_THRESHOLD = 0.4469` from `app/utils/predict.py`. -/
def OPTIMAL_THRESHOLD : ℚ := 4469 / 10000

/-- Success path of `predict_stroke` (`app/utils/predict.py`): label by the
calibrated threshold, confidence scaled relative to the threshold and
clamped into [0, 1]. -/
def predictionOf (probability : ℚ) : Prediction :=
  let diagnosis := if OPTIMAL_THRESHOLD ≤ probability then "Stroke" else "Normal"
  let confidence :=
    if diagnosis = "Stroke" then (probability - OPTIMAL_THRESHOLD) / (1 - OPTIMAL_THRESHOLD)
    else (OPTIMAL_THRESHOLD - probability) / OPTIMAL_THRESHOLD
  { diagnosis := diagnosis
    confidence := max 0 (min 1 confidence)
    probability := probability }

/-- `predict_stroke` from `app/utils/predict.py`, with the model invocation
(`model.predict`) abstracted into its outcome `modelOutput`; any exception
from the model is re-raised wrapped as "Prediction error: ...". -/
def predict_stroke (modelOutput : Except String ℚ) : Except String Prediction :=
  match modelOutput with
  | Except.error e => Except.error ("Prediction error: " ++ e)
  | Except.ok probability => Except.ok (predictionOf probability)

/-- An image-analysis record as stored by the pipeline (embedded in the
consultation document, and also the shape of documents in the separate
top-level `image_analyses` collection written by `upload_consultation_image`). -/
structure ImageAnalysisDoc where
  image_id : Nat
  consultation_id : Nat
  filename : String
  diagnosis : String
  confidence : ℚ
  probability : ℚ
  created_at : Nat
deriving DecidableEq

/-- A consultation document in the `consultations` collection. -/
structure ConsultationDoc where
  patient_id : Nat
  date : String
  notes : Option String
  diagnosis : String
  probability : ℚ
  created_at : Nat
  image_analyses : List ImageAnalysisDoc
  updated_at : Option Nat
deriving DecidableEq

/-- A GridFS blob: file bytes plus the metadata attached at upload time. -/
structure BlobDoc where
  blob_id : Nat
  filename : String
  content : Bytes
  content_type : String
  consultation_id : Nat
deriving DecidableEq

/-- The store state: `patients` (id, name), the `consultations` collection,
the separate top-level `image_analyses` collection, GridFS `blobs`, and the
fresh-id counter. -/
structure DB where
  patients : List (Nat × String)
  consultations : List (Nat × ConsultationDoc)
  image_analyses : List ImageAnalysisDoc
  blobs : List BlobDoc
  nextId : Nat
deriving DecidableEq

/-- External effects: the Scorer (Keras model), whether the rollback
`consultations.delete_one` raises, PIL image verification, and which GridFS
deletes fail. -/
structure Env where
  scorer : Bytes → Except String ℚ
  deleteRaises : Bool
  imageVerify : Bytes → Bool
  blobDeleteFails : Nat → Bool

/-- All ids in the consultations collection were allocated below the fresh
counter (Mongo `_id` uniqueness/freshness). -/
def DB.fresh (db : DB) : Prop := ∀ p ∈ db.consultations, p.1 < db.nextId

/-- `consultations.find_one({"_id": cid})`. -/
def lookupConsultation (db : DB) (cid : Nat) : Option ConsultationDoc :=
  (db.consultations.find? (fun p => p.1 == cid)).map (fun p => p.2)

/-- `consultations.delete_one({"_id": cid})` (ids are unique). -/
def removeConsultation (db : DB) (cid : Nat) : DB :=
  { db with consultations := db.consultations.filter (fun p => p.1 != cid) }

/-- `consultations.update_one({"_id": cid}, {"$set": ...})` with the new
document value (ids are unique). -/
def setConsultation (db : DB) (cid : Nat) (c : ConsultationDoc) : DB :=
  { db with consultations :=
      db.consultations.map (fun p => if p.1 == cid then (p.1, c) else p) }

/-- Whether `fs.open_download_stream`/`fs.find` succeeds for a GridFS id. -/
def blobExists (db : DB) (bid : Nat) : Bool :=
  db.blobs.any (fun b => b.blob_id == bid)

/-- `notes.strip() if notes and notes.strip() else None`. -/
def cleanNotes (notes : Option String) : Option String :=
  match notes with
  | none => none
  | some s => if s.trim = "" then none else some s.trim

/-- The per-image filename / content-type validation loop of
`create_consultation` (lines 80-91): first offending image wins. -/
def validateImages : List UploadFile → Option HTTPError
  | [] => none
  | img :: rest =>
    if img.filename = "" then
      some ⟨400, "All uploaded files must have filenames"⟩
    else if !(img.content_type.startsWith "image/") then
      some ⟨400, "File " ++ img.filename ++ " is not a valid image"⟩
    else validateImages rest

/-- The failure path of the per-image loop: both `except` branches first run
the unguarded `consultations.delete_one` and then re-raise.  If that delete
itself raises, the new exception replaces the original one and escapes the
handler as a 500 "Internal Server Error", and the provisional consultation
survives. -/
def failImg (env : Env) (cid : Nat) (db : DB) (err : HTTPError) :
    (Except HTTPError (List ImageAnalysisDoc × List ℚ)) × DB :=
  if env.deleteRaises then (Except.error ⟨500, "Internal Server Error"⟩, db)
  else (Except.error err, removeConsultation db cid)

/-- Response entry for one image analysis (the dict built at lines 236-248
and 374-384 of `app/routes/consultations.py`); the display URL
`{API_BASE_URL}/api/images/{id}` is modelled as `some id`. -/
structure ImageAnalysisResponse where
  id : Nat
  image_id : Nat
  consultation_id : Nat
  filename : String
  diagnosis : String
  confidence : ℚ
  probability : ℚ
  url : Option Nat
  created_at : Nat
deriving DecidableEq

/-- The `ConsultationResponse` pydantic model (fields used by the claims). -/
structure ConsultationResponse where
  id : Nat
  patient_id : Nat
  patient_name : String
  date : String
  notes : Option String
  diagnosis : String
  probability : ℚ
  created_at : Nat
  images : List ImageAnalysisResponse
deriving DecidableEq

/-- Shape an embedded image-analysis record into a response entry with a
materialized URL. -/
def embeddedEntry (cid : Nat) (a : ImageAnalysisDoc) : ImageAnalysisResponse :=
  { id := a.image_id
    image_id := a.image_id
    consultation_id := cid
    filename := a.filename
    diagnosis := a.diagnosis
    confidence := a.confidence
    probability := a.probability
    url := some a.image_id
    created_at := a.created_at }

/-- The per-image loop of `create_consultation` (lines 144-206): read the
content, reject empty or oversized payloads, classify, upload the blob to
GridFS with consultation metadata, and accumulate the analysis record and
probability; any failure rolls back via `failImg` and stops. -/
def processImages (env : Env) (cid : Nat) (now : Nat) :
    List UploadFile → DB → (Except HTTPError (List ImageAnalysisDoc × List ℚ)) × DB
  | [], db => (Except.ok ([], []), db)
  | img :: rest, db =>
    if img.content.length = 0 then
      failImg env cid db ⟨400, "Image " ++ img.filename ++ " is empty"⟩
    else if 10485760 < img.content.length then
      failImg env cid db ⟨400, "Image " ++ img.filename ++ " is too large (max 10MB)"⟩
    else
      match predict_stroke (env.scorer img.content) with
      | Except.error e =>
        failImg env cid db ⟨500, "Error processing image " ++ img.filename ++ ": " ++ e⟩
      | Except.ok pred =>
        let blobId := db.nextId
        let db1 : DB := { db with
          blobs := db.blobs ++ [⟨blobId, img.filename, img.content, img.content_type, cid⟩]
          nextId := db.nextId + 1 }
        let a : ImageAnalysisDoc :=
          ⟨blobId, cid, img.filename, pred.diagnosis, pred.confidence, pred.probability, now⟩
        match processImages env cid now rest db1 with
        | (Except.ok (as, ps), db2) => (Except.ok (a :: as, pred.probability :: ps), db2)
        | (Except.error e, db2) => (Except.error e, db2)

/-- The provisional consultation document inserted before per-image work
begins (lines 116-124 of `app/routes/consultations.py`). -/
def provisionalDoc (patient_id : Nat) (date : String) (notes : Option String)
    (now : Nat) : ConsultationDoc :=
  { patient_id := patient_id
    date := date
    notes := cleanNotes notes
    diagnosis := "Processing..."
    probability := 0
    created_at := now
    image_analyses := []
    updated_at := none }

/-- `create_consultation` (POST handler, `app/routes/consultations.py`
lines 42-274). -/
def create_consultation (env : Env) (db : DB) (patient_id : Nat) (date : String)
    (notes : Option String) (images : List UploadFile) (now : Nat) :
    (Except HTTPError ConsultationResponse) × DB :=
  if date.trim = "" then (Except.error ⟨400, "Date is required"⟩, db)
  else if images = [] then
    (Except.error ⟨400, "At least one image is required"⟩, db)
  else
    match validateImages images with
    | some err => (Except.error err, db)
    | none =>
      match db.patients.find? (fun p => p.1 == patient_id) with
      | none => (Except.error ⟨404, "Patient not found"⟩, db)
      | some patient =>
        let cid := db.nextId
        let provisional := provisionalDoc patient_id date notes now
        let db1 : DB := { db with
          consultations := db.consultations ++ [(cid, provisional)]
          nextId := db.nextId + 1 }
        match processImages env cid now images db1 with
        | (Except.error e, db2) => (Except.error e, db2)
        | (Except.ok (analyses, probs), db2) =>
          let avg : ℚ := if probs = [] then 0 else probs.sum / (probs.length : ℚ)
          let finalDiagnosis := if (1 : ℚ) / 2 ≤ avg then "Stroke" else "Normal"
          let finishFail : (Except HTTPError ConsultationResponse) × DB :=
            if env.deleteRaises then (Except.error ⟨500, "Internal Server Error"⟩, db2)
            else (Except.error ⟨500, "Failed to update consultation with results"⟩,
                  removeConsultation db2 cid)
          match lookupConsultation db2 cid with
          | none => finishFail
          | some c =>
            let cFinal : ConsultationDoc :=
              { c with diagnosis := finalDiagnosis, probability := avg,
                       image_analyses := analyses }
            if cFinal = c then finishFail
            else
              (Except.ok
                { id := cid
                  patient_id := patient_id
                  patient_name := patient.2
                  date := date
                  notes := cleanNotes notes
                  diagnosis := finalDiagnosis
                  probability := avg
                  created_at := now
                  images := analyses.map (embeddedEntry cid) },
               setConsultation db2 cid cFinal)

/-- Response entry for an image found only in the separate `image_analyses`
collection (fallback branch of `get_consultation`, lines 395-442): if the
GridFS blob is found the entry carries a URL, otherwise it is kept with
`url = None` (marked inaccessible). -/
def fallbackEntry (db : DB) (a : ImageAnalysisDoc) : ImageAnalysisResponse :=
  { id := a.image_id
    image_id := a.image_id
    consultation_id := a.consultation_id
    filename := a.filename
    diagnosis := a.diagnosis
    confidence := a.confidence
    probability := a.probability
    url := if blobExists db a.image_id then some a.image_id else none
    created_at := a.created_at }

/-- `get_consultation` (GET by id, `app/routes/consultations.py` lines
344-466).  If the consultation document embeds a non-empty
`image_analyses` list, each entry whose GridFS blob opens is shaped into a
response entry and inaccessible ones are logged and omitted; otherwise the
separate top-level `image_analyses` collection is consulted as a fallback.
A missing patient yields the placeholder name "Unknown".  Read-only. -/
def get_consultation (db : DB) (cid : Nat) : Except HTTPError ConsultationResponse :=
  match lookupConsultation db cid with
  | none => Except.error ⟨404, "Consultation not found"⟩
  | some c =>
    let patient := db.patients.find? (fun p => p.1 == c.patient_id)
    let processed :=
      if c.image_analyses = [] then
        (db.image_analyses.filter (fun a => a.consultation_id == cid)).map (fallbackEntry db)
      else
        (c.image_analyses.filter (fun a => blobExists db a.image_id)).map (embeddedEntry cid)
    Except.ok
      { id := cid
        patient_id := c.patient_id
        patient_name := match patient with | some p => p.2 | none => "Unknown"
        date := c.date
        notes := c.notes
        diagnosis := c.diagnosis
        probability := c.probability
        created_at := c.created_at
        images := processed }

/-- The `update_data` `$set` of the PUT handler applied to a consultation
document: only `patient_id`, `date`, `notes` and `updated_at` are
rewritten. -/
def updatedDoc (c : ConsultationDoc) (patient_id : Nat) (date : String)
    (notes : Option String) (now : Nat) : ConsultationDoc :=
  { c with patient_id := patient_id
           date := date
           notes := cleanNotes notes
           updated_at := some now }

/-- `update_consultation` (PUT handler, `app/routes/consultations.py` lines
468-535).  Validates that the consultation and the patient exist, then
`$set`s only `patient_id`, `date`, `notes`, `updated_at`.  Mongo reports
`modified_count = 0` when the `$set` changes nothing, which the handler
turns into a 404.  On success the handler re-reads and returns the updated
document. -/
def update_consultation (db : DB) (cid : Nat) (patient_id : Nat) (date : String)
    (notes : Option String) (now : Nat) : (Except HTTPError ConsultationDoc) × DB :=
  match lookupConsultation db cid with
  | none => (Except.error ⟨404, "Consultation not found"⟩, db)
  | some c =>
    match db.patients.find? (fun p => p.1 == patient_id) with
    | none => (Except.error ⟨404, "Patient not found"⟩, db)
    | some _ =>
      let c2 : ConsultationDoc := updatedDoc c patient_id date notes now
      if c2 = c then
        (Except.error ⟨404, "Consultation not found or no changes made"⟩, db)
      else (Except.ok c2, setConsultation db cid c2)

/-- `delete_consultation` (DELETE handler, `app/routes/consultations.py`
lines 603-649).  Loads the consultation (404 if absent), best-effort
deletes every blob referenced by the embedded image list (a failing GridFS
delete is logged and the blob survives; never fatal), then deletes the
consultation document (404 if `deleted_count = 0`). -/
def delete_consultation (env : Env) (db : DB) (cid : Nat) :
    (Except HTTPError Unit) × DB :=
  match lookupConsultation db cid with
  | none => (Except.error ⟨404, "Consultation not found"⟩, db)
  | some c =>
    let ids := c.image_analyses.map (fun a => a.image_id)
    let db1 : DB := { db with
      blobs := db.blobs.filter
        (fun b => !(ids.contains b.blob_id && !env.blobDeleteFails b.blob_id)) }
    if db1.consultations.any (fun p => p.1 == cid) then
      (Except.ok (),
       { db1 with consultations := db1.consultations.filter (fun p => p.1 != cid) })
    else (Except.error ⟨404, "Consultation not found"⟩, db1)

/-- The success payload of `upload_consultation_image` (fields used by the
claims). -/
structure UploadImageResponse where
  image_id : Nat
  consultation_id : Nat
  filename : String
deriving DecidableEq

/-- `upload_consultation_image` (POST upload handler, `app/routes/images.py`
lines 110-183).  Validates the consultation exists and the file is an
image, uploads the bytes to GridFS, and then inserts a standalone
image-analysis record into the separate top-level `image_analyses`
collection. -/
def upload_consultation_image (env : Env) (db : DB) (cid : Nat)
    (file : UploadFile) (diagnosis : String) (confidence probability : ℚ)
    (now : Nat) : (Except HTTPError UploadImageResponse) × DB :=
  match lookupConsultation db cid with
  | none => (Except.error ⟨404, "Consultation not found"⟩, db)
  | some _ =>
    if !(file.content_type.startsWith "image/") then
      (Except.error ⟨400, "Only image files are allowed"⟩, db)
    else if !(env.imageVerify file.content) then
      (Except.error ⟨400, "Invalid image file"⟩, db)
    else
      let fid := db.nextId
      let db1 : DB := { db with
        blobs := db.blobs ++ [⟨fid, file.filename, file.content, file.content_type, cid⟩]
        image_analyses := db.image_analyses ++
          [⟨fid, cid, file.filename, diagnosis, confidence, probability, now⟩]
        nextId := db.nextId + 1 }
      (Except.ok ⟨fid, cid, file.filename⟩, db1)

/-! ### Specification-side helper definitions -/

/-- An uploaded image that passes the in-loop payload checks and on which
the Scorer succeeds. -/
def imgOk (env : Env) (img : UploadFile) : Prop :=
  img.content.length ≠ 0 ∧ img.content.length ≤ 10485760 ∧
    ((env.scorer img.content).toOption).isSome = true

instance (env : Env) (img : UploadFile) : Decidable (imgOk env img) := by
  unfold imgOk; infer_instance

/-- The Scorer's probability for an image (0 if the Scorer fails; only used
under an `imgOk` hypothesis). -/
def probOf (env : Env) (img : UploadFile) : ℚ :=
  ((env.scorer img.content).toOption).getD 0

/-- The blobs the per-image loop writes for a run of successfully processed
images, with GridFS ids allocated from `n`. -/
def buildBlobs (cid : Nat) : Nat → List UploadFile → List BlobDoc
  | _, [] => []
  | n, img :: rest =>
    ⟨n, img.filename, img.content, img.content_type, cid⟩ :: buildBlobs cid (n + 1) rest

/-- The image-analysis records the per-image loop accumulates for a run of
successfully processed images, with GridFS ids allocated from `n`. -/
def buildAnalyses (env : Env) (cid now : Nat) : Nat → List UploadFile → List ImageAnalysisDoc
  | _, [] => []
  | n, img :: rest =>
    let pred := predictionOf (probOf env img)
    ⟨n, cid, img.filename, pred.diagnosis, pred.confidence, pred.probability, now⟩ ::
      buildAnalyses env cid now (n + 1) rest

/-- The error (if any) produced by the per-image loop body for one image,
before any rollback. -/
def stepError (env : Env) (img : UploadFile) : Option HTTPError :=
  if img.content.length = 0 then
    some ⟨400, "Image " ++ img.filename ++ " is empty"⟩
  else if 10485760 < img.content.length then
    some ⟨400, "Image " ++ img.filename ++ " is too large (max 10MB)"⟩
  else
    match predict_stroke (env.scorer img.content) with
    | Except.error e =>
      some ⟨500, "Error processing image " ++ img.filename ++ ": " ++ e⟩
    | Except.ok _ => none

/-- The arithmetic mean of the Scorer probabilities of a list of images
(`sum(probabilities) / len(probabilities)`). -/
def meanProb (env : Env) (images : List UploadFile) : ℚ :=
  (images.map (probOf env)).sum / ((images.map (probOf env)).length : ℚ)

/-- The finalized consultation document after a fully successful run. -/
def finalConsultationDoc (env : Env) (db : DB) (patient_id : Nat) (date : String)
    (notes : Option String) (images : List UploadFile) (now : Nat) : ConsultationDoc :=
  { provisionalDoc patient_id date notes now with
    diagnosis := if (1 : ℚ) / 2 ≤ meanProb env images then "Stroke" else "Normal"
    probability := meanProb env images
    image_analyses := buildAnalyses env db.nextId now (db.nextId + 1) images }

/-- The response returned after a fully successful run. -/
def okResponse (env : Env) (db : DB) (patient_id : Nat) (pname : String)
    (date : String) (notes : Option String) (images : List UploadFile)
    (now : Nat) : ConsultationResponse :=
  { id := db.nextId
    patient_id := patient_id
    patient_name := pname
    date := date
    notes := cleanNotes notes
    diagnosis := if (1 : ℚ) / 2 ≤ meanProb env images then "Stroke" else "Normal"
    probability := meanProb env images
    created_at := now
    images :=
      (buildAnalyses env db.nextId now (db.nextId + 1) images).map
        (embeddedEntry db.nextId) }

/-- The store state after a fully successful run: the provisional
consultation inserted, one blob per image written, and the consultation
finalized in place. -/
def okDB (env : Env) (db : DB) (patient_id : Nat) (date : String)
    (notes : Option String) (images : List UploadFile) (now : Nat) : DB :=
  setConsultation
    { db with
      consultations :=
        db.consultations ++ [(db.nextId, provisionalDoc patient_id date notes now)]
      blobs := db.blobs ++ buildBlobs db.nextId (db.nextId + 1) images
      nextId := db.nextId + 1 + images.length }
    db.nextId
    (finalConsultationDoc env db patient_id date notes images now)

/-- The store state after a successful `delete_consultation` of `cid` whose
document was `doc`: each referenced blob whose GridFS delete succeeded is
gone (failed deletes are logged and the blob survives), and the
consultation document is removed. -/
def deletedDB (env : Env) (db : DB) (cid : Nat) (doc : ConsultationDoc) : DB :=
  { db with
    blobs := db.blobs.filter (fun b =>
      !((doc.image_analyses.map (fun a => a.image_id)).contains b.blob_id &&
        !env.blobDeleteFails b.blob_id))
    consultations := db.consultations.filter (fun p => p.1 != cid) }

/-! ### Concrete fixtures, used to instantiate the theorems -/

/-- A concrete Scorer: probability 0.3 for payload `[1]`, 0.7 for payload
`[2]`, failure for anything else. -/
def scorerW : Bytes → Except String ℚ := fun c =>
  if c = [1] then Except.ok (3 / 10)
  else if c = [2] then Except.ok (7 / 10)
  else Except.error "boom"

/-- Environment in which every external effect succeeds except the Scorer
on unknown payloads. -/
def envW : Env :=
  { scorer := scorerW
    deleteRaises := false
    imageVerify := fun _ => true
    blobDeleteFails := fun _ => false }

/-- Same environment, but the rollback `consultations.delete_one` raises. -/
def envDelW : Env := { envW with deleteRaises := true }

/-- A store holding the single patient `1` named "P" and nothing else. -/
def dbW : DB :=
  { patients := [(1, "P")]
    consultations := []
    image_analyses := []
    blobs := []
    nextId := 100 }

def imgAW : UploadFile := ⟨"a.png", "image/png", [1]⟩

def imgBW : UploadFile := ⟨"b.png", "image/png", [2]⟩

/-- An image on which the Scorer fails. -/
def imgBadW : UploadFile := ⟨"c.png", "image/png", [3]⟩

/-- An image with an empty payload. -/
def imgEmptyW : UploadFile := ⟨"e.png", "image/png", []⟩

/-- A file with a non-image content type. -/
def imgPdfW : UploadFile := ⟨"a.pdf", "application/pdf", [1]⟩

/-- A consultation document with an empty embedded image list. -/
def consultEmptyW : ConsultationDoc :=
  { patient_id := 1
    date := "2024-01-01"
    notes := none
    diagnosis := "Normal"
    probability := 0
    created_at := 5
    image_analyses := []
    updated_at := none }

/-- A standalone image-analysis record for consultation 50 as
`upload_consultation_image` writes them. -/
def sepAnalysisW : ImageAnalysisDoc := ⟨77, 50, "s.png", "Stroke", 1 / 2, 3 / 5, 5⟩

/-- A store where consultation 50 has an empty embedded list but the
separate top-level `image_analyses` collection holds a record for it,
whose blob exists. -/
def dbSepW : DB :=
  { patients := [(1, "P")]
    consultations := [(50, consultEmptyW)]
    image_analyses := [sepAnalysisW]
    blobs := [⟨77, "s.png", [9], "image/png", 50⟩]
    nextId := 100 }

/-- A finalized consultation with one embedded image analysis. -/
def consultFullW : ConsultationDoc :=
  { patient_id := 1
    date := "2024-01-01"
    notes := none
    diagnosis := "Stroke"
    probability := 1 / 2
    created_at := 5
    image_analyses := [⟨60, 50, "a.png", "Stroke", 1 / 2, 7 / 10, 5⟩]
    updated_at := none }

/-- A store holding consultation 50 (with its blob) and patient 1. -/
def dbDelW : DB :=
  { patients := [(1, "P")]
    consultations := [(50, consultFullW)]
    image_analyses := []
    blobs := [⟨60, "a.png", [1], "image/png", 50⟩]
    nextId := 100 }

/-- A consultation referencing a patient that does not exist (patient 9),
with two embedded analyses: blob 60 exists, blob 61 does not. -/
def consultOrphanW : ConsultationDoc :=
  { patient_id := 9
    date := "2024-01-01"
    notes := none
    diagnosis := "Normal"
    probability := 1 / 10
    created_at := 5
    image_analyses :=
      [⟨60, 50, "a.png", "Normal", 0, 1 / 10, 5⟩, ⟨61, 50, "b.png", "Normal", 0, 1 / 10, 5⟩]
    updated_at := none }

/-- A store holding the orphan consultation 50: its patient is missing and
only the first of its two blobs exists. -/
def dbOrphanW : DB :=
  { patients := [(1, "P")]
    consultations := [(50, consultOrphanW)]
    image_analyses := []
    blobs := [⟨60, "a.png", [1], "image/png", 50⟩]
    nextId := 100 }

/-- The document consultation 50 becomes after the C10 witness update. -/
def updatedDocW : ConsultationDoc :=
  { consultFullW with
    patient_id := 1
    date := "2025-01-02"
    notes := some "note"
    updated_at := some 7 }

/-! ### General lemmas about the pipeline -/

lemma toOption_isSome_iff (e : Except String ℚ) :
    (e.toOption).isSome = true ↔ ∃ p, e = Except.ok p := by
  cases e <;> simp [Except.toOption]

@[simp] lemma buildAnalyses_length (env : Env) (cid now : Nat) (imgs : List UploadFile) :
    ∀ n, (buildAnalyses env cid now n imgs).length = imgs.length := by
  induction imgs with
  | nil => intro n; simp [buildAnalyses]
  | cons img rest ih => intro n; simp [buildAnalyses, ih]

@[simp] lemma buildAnalyses_map_filename (env : Env) (cid now : Nat)
    (imgs : List UploadFile) :
    ∀ n, (buildAnalyses env cid now n imgs).map (fun a => a.filename) =
      imgs.map (fun i => i.filename) := by
  induction imgs with
  | nil => intro n; simp [buildAnalyses]
  | cons img rest ih => intro n; simp [buildAnalyses, ih]

@[simp] lemma buildAnalyses_map_probability (env : Env) (cid now : Nat)
    (imgs : List UploadFile) :
    ∀ n, (buildAnalyses env cid now n imgs).map (fun a => a.probability) =
      imgs.map (probOf env) := by
  induction imgs with
  | nil => intro n; simp [buildAnalyses]
  | cons img rest ih => intro n; simp [buildAnalyses, predictionOf, ih]

@[simp] lemma buildBlobs_length (cid : Nat) (imgs : List UploadFile) :
    ∀ n, (buildBlobs cid n imgs).length = imgs.length := by
  induction imgs with
  | nil => intro n; simp [buildBlobs]
  | cons img rest ih => intro n; simp [buildBlobs, ih]

lemma buildBlobs_consultation (cid : Nat) (imgs : List UploadFile) :
    ∀ n, ∀ b ∈ buildBlobs cid n imgs, b.consultation_id = cid := by
  induction imgs with
  | nil => intro n b hb; simp [buildBlobs] at hb
  | cons img rest ih =>
    intro n b hb
    simp only [buildBlobs, List.mem_cons] at hb
    cases hb with
    | inl h => subst h; rfl
    | inr h => exact ih (n + 1) b h

/-- A successfully processed run: all images pass the payload checks and the
Scorer succeeds, so the loop returns the accumulated analyses and
probabilities in input order, writes one blob per image, and leaves the
consultations collection untouched. -/
lemma processImages_all_ok (env : Env) (cid now : Nat) (imgs : List UploadFile) :
    ∀ db : DB, (∀ img ∈ imgs, imgOk env img) →
    processImages env cid now imgs db =
      (Except.ok (buildAnalyses env cid now db.nextId imgs, imgs.map (probOf env)),
       { db with blobs := db.blobs ++ buildBlobs cid db.nextId imgs,
                 nextId := db.nextId + imgs.length }) := by
  induction imgs with
  | nil =>
    intro db _
    simp [processImages, buildAnalyses, buildBlobs]
  | cons img rest ih =>
    intro db h
    obtain ⟨h1, h2, h3⟩ := h img (List.mem_cons_self img rest)
    obtain ⟨p, hp⟩ := (toOption_isSome_iff _).mp h3
    have hnlt : ¬ 10485760 < img.content.length := Nat.not_lt.mpr h2
    rw [processImages, if_neg h1, if_neg hnlt, hp]
    simp only [predict_stroke]
    rw [ih _ (fun i hi => h i (List.mem_cons_of_mem img hi))]
    have hprob : probOf env img = p := by simp [probOf, hp, Except.toOption]
    simp [buildAnalyses, buildBlobs, hprob, predictionOf, List.append_assoc,
      Nat.add_assoc, Nat.add_comm 1 rest.length]

/-- A run that fails at the image `bad` after a successful prefix `pre`:
the loop stops there, having written only the blobs for `pre`, and runs the
rollback (`failImg`) on the state reached so far.  No image after `bad` is
processed. -/
lemma processImages_fail_at (env : Env) (cid now : Nat) (pre : List UploadFile)
    (bad : UploadFile) (rest : List UploadFile) (err : HTTPError)
    (hb : stepError env bad = some err) :
    ∀ db : DB, (∀ img ∈ pre, imgOk env img) →
    processImages env cid now (pre ++ bad :: rest) db =
      failImg env cid
        { db with blobs := db.blobs ++ buildBlobs cid db.nextId pre,
                  nextId := db.nextId + pre.length } err := by
  induction pre with
  | nil =>
    intro db _
    simp only [List.nil_append, buildBlobs, List.append_nil, List.length_nil,
      Nat.add_zero]
    unfold stepError at hb
    rw [processImages]
    by_cases hz : bad.content.length = 0
    · rw [if_pos hz] at hb ⊢
      obtain rfl : (⟨400, "Image " ++ bad.filename ++ " is empty"⟩ : HTTPError) = err :=
        Option.some.inj hb
      rfl
    · rw [if_neg hz] at hb ⊢
      by_cases hl : 10485760 < bad.content.length
      · rw [if_pos hl] at hb ⊢
        obtain rfl :
            (⟨400, "Image " ++ bad.filename ++ " is too large (max 10MB)"⟩ : HTTPError)
              = err := Option.some.inj hb
        rfl
      · rw [if_neg hl] at hb ⊢
        cases hps : predict_stroke (env.scorer bad.content) with
        | error e =>
          rw [hps] at hb
          obtain rfl :
              (⟨500, "Error processing image " ++ bad.filename ++ ": " ++ e⟩ : HTTPError)
                = err := Option.some.inj hb
          rfl
        | ok pred => rw [hps] at hb; exact absurd hb (by simp)
  | cons img pre ih =>
    intro db h
    obtain ⟨h1, h2, h3⟩ := h img (List.mem_cons_self img pre)
    obtain ⟨p, hp⟩ := (toOption_isSome_iff _).mp h3
    have hnlt : ¬ 10485760 < img.content.length := Nat.not_lt.mpr h2
    rw [List.cons_append, processImages, if_neg h1, if_neg hnlt, hp]
    simp only [predict_stroke]
    rw [ih _ (fun i hi => h i (List.mem_cons_of_mem img hi))]
    simp only [failImg]
    by_cases hd : env.deleteRaises
    · simp [hd, buildBlobs, List.append_assoc, Nat.add_assoc,
        Nat.add_comm 1 pre.length]
    · simp [hd, removeConsultation, buildBlobs, List.append_assoc, Nat.add_assoc,
        Nat.add_comm 1 pre.length]

/-- An in-place update of the consultation with id `cid` is what a
subsequent lookup of `cid` returns, provided the id was present. -/
lemma find?_map_set (l : List (Nat × ConsultationDoc)) (cid : Nat)
    (c : ConsultationDoc) (h : (l.find? (fun p => p.1 == cid)).isSome = true) :
    ((l.map (fun p => if p.1 == cid then (p.1, c) else p)).find?
      (fun p => p.1 == cid)) = some (cid, c) := by
  induction l with
  | nil => simp [List.find?] at h
  | cons a l ih =>
    by_cases ha : a.1 = cid
    · simp [List.find?_cons, ha]
    · have hb : (a.1 == cid) = false := by simp [ha]
      rw [List.find?_cons, hb] at h
      simp only [List.map_cons, hb, Bool.false_eq_true, if_false, List.find?_cons]
      exact ih h

lemma lookup_setConsultation (db : DB) (cid : Nat) (c : ConsultationDoc)
    (h : (db.consultations.find? (fun p => p.1 == cid)).isSome = true) :
    lookupConsultation (setConsultation db cid c) cid = some c := by
  unfold lookupConsultation setConsultation
  rw [find?_map_set db.consultations cid c h]
  rfl

/-- Looking up a freshly appended consultation finds it. -/
lemma find?_append_fresh (l : List (Nat × ConsultationDoc)) (n : Nat)
    (c : ConsultationDoc) (h : ∀ p ∈ l, p.1 < n) :
    (l ++ [(n, c)]).find? (fun p => p.1 == n) = some (n, c) := by
  rw [List.find?_append]
  have : l.find? (fun p => p.1 == n) = none := by
    rw [List.find?_eq_none]
    intro x hx
    simp only [beq_iff_eq]
    exact Nat.ne_of_lt (h x hx)
  rw [this]
  simp [List.find?_cons]

/-- Removing a freshly appended consultation restores the original list. -/
lemma filter_append_fresh (l : List (Nat × ConsultationDoc)) (n : Nat)
    (c : ConsultationDoc) (h : ∀ p ∈ l, p.1 < n) :
    (l ++ [(n, c)]).filter (fun p => p.1 != n) = l := by
  rw [List.filter_append]
  have h1 : l.filter (fun p => p.1 != n) = l := by
    rw [List.filter_eq_self]
    intro a ha
    simp only [bne_iff_ne, ne_eq]
    exact Nat.ne_of_lt (h a ha)
  have h2 : ([(n, c)] : List (Nat × ConsultationDoc)).filter (fun p => p.1 != n) = [] := by
    simp
  rw [h1, h2, List.append_nil]

/-- Full characterization of a successful `create_consultation` run: all
validation passes, the patient exists, and every image processes cleanly. -/
lemma create_consultation_ok_eq
    (env : Env) (db : DB) (patient_id : Nat) (pname : String) (date : String)
    (notes : Option String) (images : List UploadFile) (now : Nat)
    (hfresh : DB.fresh db)
    (hdate : ¬ date.trim = "")
    (hne : images ≠ [])
    (hval : validateImages images = none)
    (hpat : db.patients.find? (fun p => p.1 == patient_id) = some (patient_id, pname))
    (hok : ∀ img ∈ images, imgOk env img) :
    create_consultation env db patient_id date notes images now =
      (Except.ok (okResponse env db patient_id pname date notes images now),
       okDB env db patient_id date notes images now) := by
  have hPne : ¬ images.map (probOf env) = [] := by
    simpa using hne
  have hfind : ((db.consultations ++
      [(db.nextId, provisionalDoc patient_id date notes now)]).find?
      (fun p => p.1 == db.nextId)) =
      some (db.nextId, provisionalDoc patient_id date notes now) :=
    find?_append_fresh db.consultations db.nextId _ hfresh
  simp only [create_consultation, if_neg hdate, if_neg hne, hval, hpat]
  rw [processImages_all_ok env db.nextId now images _ hok]
  simp only [lookupConsultation, hfind, Option.map_some', if_neg hPne]
  by_cases hc : (1 : ℚ) / 2 ≤
      (images.map (probOf env)).sum / ((images.map (probOf env)).length : ℚ)
  · simp only [okResponse, okDB, finalConsultationDoc, meanProb, if_pos hc]
    split
    · next hcontra =>
      exfalso
      have hd := congrArg ConsultationDoc.diagnosis hcontra
      simp only [provisionalDoc] at hd
      exact absurd hd (by decide)
    · rfl
  · simp only [okResponse, okDB, finalConsultationDoc, meanProb, if_neg hc]
    split
    · next hcontra =>
      exfalso
      have hd := congrArg ConsultationDoc.diagnosis hcontra
      simp only [provisionalDoc] at hd
      exact absurd hd (by decide)
    · rfl

/-- The per-image step error for an image whose payload checks pass but on
which the Scorer raises. -/
lemma stepError_scorer (env : Env) (img : UploadFile) (e : String)
    (h1 : img.content.length ≠ 0) (h2 : img.content.length ≤ 10485760)
    (hs : env.scorer img.content = Except.error e) :
    stepError env img =
      some ⟨500, "Error processing image " ++ img.filename ++ ": " ++
        ("Prediction error: " ++ e)⟩ := by
  unfold stepError
  rw [if_neg h1, if_neg (Nat.not_lt.mpr h2), hs]
  simp [predict_stroke]

/-- Characterization of a `create_consultation` run that fails at image
`bad` (after the clean prefix `pre`) when the rollback delete succeeds:
the error surfaces, the provisional consultation is removed again, the
blobs for `pre` stay written, and no image of `rest` is touched. -/
lemma create_consultation_fail_eq
    (env : Env) (db : DB) (patient_id : Nat) (pname : String) (date : String)
    (notes : Option String) (pre : List UploadFile) (bad : UploadFile)
    (rest : List UploadFile) (now : Nat) (err : HTTPError)
    (hdel : env.deleteRaises = false)
    (hfresh : DB.fresh db)
    (hdate : ¬ date.trim = "")
    (hval : validateImages (pre ++ bad :: rest) = none)
    (hpat : db.patients.find? (fun p => p.1 == patient_id) = some (patient_id, pname))
    (hpre : ∀ img ∈ pre, imgOk env img)
    (hstep : stepError env bad = some err) :
    create_consultation env db patient_id date notes (pre ++ bad :: rest) now =
      (Except.error err,
       { db with blobs := db.blobs ++ buildBlobs db.nextId (db.nextId + 1) pre,
                 nextId := db.nextId + 1 + pre.length }) := by
  have hne : pre ++ bad :: rest ≠ [] := by simp
  simp only [create_consultation, if_neg hdate, if_neg hne, hval, hpat]
  rw [processImages_fail_at env db.nextId now pre bad rest err hstep _ hpre]
  simp only [failImg, hdel, Bool.false_eq_true, if_false, removeConsultation]
  rw [filter_append_fresh db.consultations db.nextId _ hfresh]

/-- After filtering out id `cid`, a lookup of `cid` finds nothing. -/
lemma lookup_filter_ne (l : List (Nat × ConsultationDoc)) (cid : Nat) :
    (l.filter (fun p => p.1 != cid)).find? (fun p => p.1 == cid) = none := by
  rw [List.find?_eq_none]
  intro x hx
  have hne := (List.mem_filter.mp hx).2
  simp only [bne_iff_ne, ne_eq] at hne
  simp [hne]

/-- A successful `delete_consultation`: found document `doc`, best-effort
blob deletes, document removed. -/
lemma delete_consultation_some (env : Env) (db : DB) (cid : Nat)
    (doc : ConsultationDoc) (h : lookupConsultation db cid = some doc) :
    delete_consultation env db cid = (Except.ok (), deletedDB env db cid doc) := by
  have h' := h
  unfold lookupConsultation at h'
  obtain ⟨pr, hfind, hpr⟩ := Option.map_eq_some'.mp h'
  have hmem := List.mem_of_find?_eq_some hfind
  have hpred := List.find?_some hfind
  have hany : (db.consultations.any (fun p => p.1 == cid)) = true :=
    List.any_eq_true.mpr ⟨pr, hmem, hpred⟩
  simp only [delete_consultation, h, hany, if_true, deletedDB]

lemma lookup_deletedDB (env : Env) (db : DB) (cid : Nat) (doc : ConsultationDoc) :
    lookupConsultation (deletedDB env db cid doc) cid = none := by
  simp only [deletedDB, lookupConsultation]
  rw [lookup_filter_ne]
  rfl

/-! ### Claims -/

/-- C1: for every valid input with N images (N ≥ 1), a successful
`create_consultation` produces a consultation whose embedded image-analysis
list has exactly N entries in input order, whose probability equals the
arithmetic mean of the N per-image probabilities, and whose diagnosis is
"Stroke" if and only if that mean is at least 1/2 (boundary inclusive);
the returned response agrees. -/
theorem create_consultation_mean_diagnosis_order
    (env : Env) (db : DB) (patient_id : Nat) (pname : String) (date : String)
    (notes : Option String) (images : List UploadFile) (now : Nat)
    (hfresh : DB.fresh db)
    (hdate : ¬ date.trim = "")
    (hne : images ≠ [])
    (hval : validateImages images = none)
    (hpat : db.patients.find? (fun p => p.1 == patient_id) = some (patient_id, pname))
    (hok : ∀ img ∈ images, imgOk env img) :
    ∃ resp db2,
      create_consultation env db patient_id date notes images now =
        (Except.ok resp, db2) ∧
      resp.images.length = images.length ∧
      resp.images.map (fun a => a.filename) = images.map (fun i => i.filename) ∧
      resp.images.map (fun a => a.probability) = images.map (probOf env) ∧
      resp.probability = (images.map (probOf env)).sum / (images.length : ℚ) ∧
      (resp.diagnosis = "Stroke" ↔ (1 : ℚ) / 2 ≤ resp.probability) ∧
      ∃ doc, lookupConsultation db2 db.nextId = some doc ∧
        doc.image_analyses.length = images.length ∧
        doc.image_analyses.map (fun a => a.filename) =
          images.map (fun i => i.filename) ∧
        doc.image_analyses.map (fun a => a.probability) = images.map (probOf env) ∧
        doc.probability = resp.probability ∧
        doc.diagnosis = resp.diagnosis := by
  have hfind : ((db.consultations ++
      [(db.nextId, provisionalDoc patient_id date notes now)]).find?
      (fun p => p.1 == db.nextId)) =
      some (db.nextId, provisionalDoc patient_id date notes now) :=
    find?_append_fresh db.consultations db.nextId _ hfresh
  rw [create_consultation_ok_eq env db patient_id pname date notes images now
    hfresh hdate hne hval hpat hok]
  refine ⟨_, _, rfl, ?_, ?_, ?_, ?_, ?_, ?_⟩
  · simp [okResponse]
  · simp [okResponse, embeddedEntry, Function.comp_def]
  · simp [okResponse, embeddedEntry, Function.comp_def]
  · simp [okResponse, meanProb]
  · simp only [okResponse]
    by_cases hc : (1 : ℚ) / 2 ≤ meanProb env images
    · simp [if_pos hc, hc]
    · simp only [if_neg hc]
      constructor
      · intro hcontra; exact absurd hcontra (by decide)
      · intro hcontra; exact absurd hcontra hc
  · refine ⟨finalConsultationDoc env db patient_id date notes images now,
      lookup_setConsultation _ db.nextId _ (by simp [hfind]), ?_, ?_, ?_, rfl, rfl⟩
    · simp [finalConsultationDoc]
    · simp [finalConsultationDoc]
    · simp [finalConsultationDoc]

/-- Witness for C1 at a concrete input: patient 1 exists, two images with
Scorer outputs 0.3 and 0.7; the mean is exactly 0.5 and the diagnosis is
"Stroke" (boundary inclusive). -/
theorem create_consultation_mean_diagnosis_order_witness :
    ∃ resp db2,
      create_consultation envW dbW 1 "2024-01-01" none [imgAW, imgBW] 5 =
        (Except.ok resp, db2) ∧
      resp.images.length = ([imgAW, imgBW] : List UploadFile).length ∧
      resp.images.map (fun a => a.filename) =
        ([imgAW, imgBW] : List UploadFile).map (fun i => i.filename) ∧
      resp.images.map (fun a => a.probability) =
        ([imgAW, imgBW] : List UploadFile).map (probOf envW) ∧
      resp.probability =
        (([imgAW, imgBW] : List UploadFile).map (probOf envW)).sum /
          ((([imgAW, imgBW] : List UploadFile).length : ℚ)) ∧
      (resp.diagnosis = "Stroke" ↔ (1 : ℚ) / 2 ≤ resp.probability) ∧
      ∃ doc, lookupConsultation db2 dbW.nextId = some doc ∧
        doc.image_analyses.length = ([imgAW, imgBW] : List UploadFile).length ∧
        doc.image_analyses.map (fun a => a.filename) =
          ([imgAW, imgBW] : List UploadFile).map (fun i => i.filename) ∧
        doc.image_analyses.map (fun a => a.probability) =
          ([imgAW, imgBW] : List UploadFile).map (probOf envW) ∧
        doc.probability = resp.probability ∧
        doc.diagnosis = resp.diagnosis :=
  create_consultation_mean_diagnosis_order envW dbW 1 "P" "2024-01-01" none
    [imgAW, imgBW] 5 (by unfold DB.fresh; decide) (by with_unfolding_all decide)
    (by decide) (by with_unfolding_all decide) (by decide)
    (by with_unfolding_all decide)

/-- C5 counterexample: at raw probability 0.45 the per-image label computed
by `predict_stroke` is "Stroke", yet 0.45 < 0.5 — so the label is not
derived from the fixed 0.5 cutoff. -/
theorem predict_fixed_half_policy_refuted :
    ((predict_stroke (Except.ok (45 / 100))).toOption.map
      (fun pred => pred.diagnosis)) = some "Stroke" ∧
    ¬ ((1 : ℚ) / 2 ≤ 45 / 100) := by
  constructor
  · with_unfolding_all decide
  · with_unfolding_all decide

/-- C5 amended: `predict_stroke` derives the per-image label from the
calibrated threshold `OPTIMAL_THRESHOLD = 0.4469` (not 0.5), with
threshold-relative confidence scaling clamped into [0, 1]; this single
calibrated policy is applied uniformly to every per-image label. -/
theorem predict_calibrated_threshold (p : ℚ) :
    ∃ pred, predict_stroke (Except.ok p) = Except.ok pred ∧
      (pred.diagnosis = "Stroke" ↔ OPTIMAL_THRESHOLD ≤ p) ∧
      0 ≤ pred.confidence ∧ pred.confidence ≤ 1 ∧
      pred.probability = p := by
  refine ⟨predictionOf p, rfl, ?_, ?_, ?_, rfl⟩
  · simp only [predictionOf]
    by_cases hc : OPTIMAL_THRESHOLD ≤ p
    · simp [if_pos hc, hc]
    · simp only [if_neg hc]
      constructor
      · intro hcontra; exact absurd hcontra (by decide)
      · intro hcontra; exact absurd hcontra hc
  · exact le_max_left 0 _
  · exact max_le (by norm_num) (min_le_left 1 _)

/-- Witness for the amended C5 at probability 0.45: between the calibrated
threshold 0.4469 and 0.5, the label is "Stroke". -/
theorem predict_calibrated_threshold_witness :
    ∃ pred, predict_stroke (Except.ok (45 / 100)) = Except.ok pred ∧
      (pred.diagnosis = "Stroke" ↔ OPTIMAL_THRESHOLD ≤ 45 / 100) ∧
      0 ≤ pred.confidence ∧ pred.confidence ≤ 1 ∧
      pred.probability = 45 / 100 :=
  predict_calibrated_threshold (45 / 100)

/-- C7: when the referenced patient does not exist (and the request passes
the earlier date/image validations that precede the patient check),
`create_consultation` fails with 404 "Patient not found" and the store is
returned completely unchanged: no consultation insert, no blob write. -/
theorem create_consultation_patient_absent_no_writes
    (env : Env) (db : DB) (patient_id : Nat) (date : String)
    (notes : Option String) (images : List UploadFile) (now : Nat)
    (hdate : ¬ date.trim = "")
    (hne : images ≠ [])
    (hval : validateImages images = none)
    (hpat : db.patients.find? (fun p => p.1 == patient_id) = none) :
    create_consultation env db patient_id date notes images now =
      (Except.error ⟨404, "Patient not found"⟩, db) := by
  simp only [create_consultation, if_neg hdate, if_neg hne, hval, hpat]

/-- Witness for C7: patient 2 does not exist in `dbW`; one valid image. -/
theorem create_consultation_patient_absent_no_writes_witness :
    create_consultation envW dbW 2 "2024-01-01" none [imgAW] 5 =
      (Except.error ⟨404, "Patient not found"⟩, dbW) :=
  create_consultation_patient_absent_no_writes envW dbW 2 "2024-01-01" none
    [imgAW] 5 (by with_unfolding_all decide) (by decide)
    (by with_unfolding_all decide) (by decide)

/-- C2 counterexample: the Scorer fails on the only image and the rollback
`consultations.delete_one` itself raises.  Because that delete call is not
guarded, its exception replaces the triggering error: the caller receives
500 "Internal Server Error" instead of the per-image error, and the
provisional consultation is NOT deleted — contradicting both parts of the
claim at this input. -/
theorem rollback_failure_masks_trigger :
    (create_consultation envDelW dbW 1 "2024-01-01" none [imgBadW] 5).1 =
      Except.error ⟨500, "Internal Server Error"⟩ ∧
    lookupConsultation
      (create_consultation envDelW dbW 1 "2024-01-01" none [imgBadW] 5).2
      dbW.nextId = some (provisionalDoc 1 "2024-01-01" none 5) ∧
    (⟨500, "Internal Server Error"⟩ : HTTPError) ≠
      ⟨500, "Error processing image c.png: Prediction error: boom"⟩ := by
  refine ⟨?_, ?_, ?_⟩ <;> with_unfolding_all decide

/-- C2 amended: if the Scorer fails on some image (and the rollback delete
itself succeeds, `deleteRaises = false`), the operation deletes the
provisional consultation, processes no remaining image, and surfaces the
triggering error (wrapped as a 500 naming the image).  When the rollback
delete raises, its failure replaces the reported error instead. -/
theorem create_consultation_abort_on_image_failure
    (env : Env) (db : DB) (patient_id : Nat) (pname : String) (date : String)
    (notes : Option String) (pre : List UploadFile) (bad : UploadFile)
    (rest : List UploadFile) (now : Nat) (e : String)
    (hdel : env.deleteRaises = false)
    (hfresh : DB.fresh db)
    (hdate : ¬ date.trim = "")
    (hval : validateImages (pre ++ bad :: rest) = none)
    (hpat : db.patients.find? (fun p => p.1 == patient_id) = some (patient_id, pname))
    (hpre : ∀ img ∈ pre, imgOk env img)
    (hbne : bad.content.length ≠ 0)
    (hbsize : bad.content.length ≤ 10485760)
    (hbad : env.scorer bad.content = Except.error e) :
    create_consultation env db patient_id date notes (pre ++ bad :: rest) now =
      (Except.error ⟨500, "Error processing image " ++ bad.filename ++ ": " ++
          ("Prediction error: " ++ e)⟩,
       { db with blobs := db.blobs ++ buildBlobs db.nextId (db.nextId + 1) pre,
                 nextId := db.nextId + 1 + pre.length }) :=
  create_consultation_fail_eq env db patient_id pname date notes pre bad rest now
    _ hdel hfresh hdate hval hpat hpre
    (stepError_scorer env bad e hbne hbsize hbad)

/-- Witness for the amended C2: Scorer fails on the second of two images;
the provisional consultation is gone, the first image's blob was written,
and the triggering error surfaces. -/
theorem create_consultation_abort_on_image_failure_witness :
    create_consultation envW dbW 1 "2024-01-01" none [imgAW, imgBadW] 5 =
      (Except.error ⟨500, "Error processing image " ++ imgBadW.filename ++ ": " ++
          ("Prediction error: " ++ "boom")⟩,
       { dbW with blobs := dbW.blobs ++ buildBlobs dbW.nextId (dbW.nextId + 1) [imgAW],
                  nextId := dbW.nextId + 1 + 1 }) :=
  create_consultation_abort_on_image_failure envW dbW 1 "P" "2024-01-01" none
    [imgAW] imgBadW [] 5 "boom" (by decide) (by unfold DB.fresh; decide)
    (by with_unfolding_all decide) (by with_unfolding_all decide) (by decide)
    (by with_unfolding_all decide) (by decide) (by decide)
    (by with_unfolding_all decide)

/-- C3 counterexample: the Scorer fails on the 2nd of 2 images; after the
call returns its error the consultation document is gone, yet the blob
written for image 1 — whose metadata references the deleted consultation —
is still in the blob store.  So a blob written for images 1..k does
survive. -/
theorem orphan_blob_after_scorer_failure :
    (create_consultation envW dbW 1 "2024-01-01" none [imgAW, imgBadW] 5).1 =
      Except.error ⟨500, "Error processing image c.png: Prediction error: boom"⟩ ∧
    lookupConsultation
      (create_consultation envW dbW 1 "2024-01-01" none [imgAW, imgBadW] 5).2
      dbW.nextId = none ∧
    ((create_consultation envW dbW 1 "2024-01-01" none [imgAW, imgBadW] 5).2.blobs.any
      (fun b => b.consultation_id == dbW.nextId)) = true := by
  refine ⟨?_, ?_, ?_⟩ <;> with_unfolding_all decide

/-- C3 amended: if the Scorer fails on the k-th image, the provisional
consultation is deleted, but the pipeline performs no blob cleanup at all:
the blobs written for images 1..k-1 (exactly k-1 of them) all remain in
the blob store, each still referencing the deleted consultation.  No blob
exists for the failing image itself, since scoring precedes the blob
write. -/
theorem create_consultation_scorer_failure_blob_leak
    (env : Env) (db : DB) (patient_id : Nat) (pname : String) (date : String)
    (notes : Option String) (pre : List UploadFile) (bad : UploadFile)
    (rest : List UploadFile) (now : Nat) (e : String)
    (hdel : env.deleteRaises = false)
    (hfresh : DB.fresh db)
    (hdate : ¬ date.trim = "")
    (hval : validateImages (pre ++ bad :: rest) = none)
    (hpat : db.patients.find? (fun p => p.1 == patient_id) = some (patient_id, pname))
    (hpre : ∀ img ∈ pre, imgOk env img)
    (hbne : bad.content.length ≠ 0)
    (hbsize : bad.content.length ≤ 10485760)
    (hbad : env.scorer bad.content = Except.error e) :
    lookupConsultation
      (create_consultation env db patient_id date notes (pre ++ bad :: rest) now).2
      db.nextId = none ∧
    (create_consultation env db patient_id date notes (pre ++ bad :: rest) now).2.blobs =
      db.blobs ++ buildBlobs db.nextId (db.nextId + 1) pre ∧
    (buildBlobs db.nextId (db.nextId + 1) pre).length = pre.length ∧
    (∀ b ∈ buildBlobs db.nextId (db.nextId + 1) pre,
      b.consultation_id = db.nextId) := by
  rw [create_consultation_fail_eq env db patient_id pname date notes pre bad rest now
    _ hdel hfresh hdate hval hpat hpre (stepError_scorer env bad e hbne hbsize hbad)]
  refine ⟨?_, rfl, by simp, buildBlobs_consultation db.nextId pre (db.nextId + 1)⟩
  simp only [lookupConsultation]
  have : db.consultations.find? (fun p => p.1 == db.nextId) = none := by
    rw [List.find?_eq_none]
    intro x hx
    simp [Nat.ne_of_lt (hfresh x hx)]
  simp [this]

/-- Witness for the amended C3: two images, Scorer fails on the second;
exactly one orphaned blob (for image 1) remains, referencing the deleted
consultation. -/
theorem create_consultation_scorer_failure_blob_leak_witness :
    lookupConsultation
      (create_consultation envW dbW 1 "2024-01-01" none [imgAW, imgBadW] 5).2
      dbW.nextId = none ∧
    (create_consultation envW dbW 1 "2024-01-01" none [imgAW, imgBadW] 5).2.blobs =
      dbW.blobs ++ buildBlobs dbW.nextId (dbW.nextId + 1) [imgAW] ∧
    (buildBlobs dbW.nextId (dbW.nextId + 1) [imgAW]).length =
      ([imgAW] : List UploadFile).length ∧
    (∀ b ∈ buildBlobs dbW.nextId (dbW.nextId + 1) [imgAW],
      b.consultation_id = dbW.nextId) :=
  create_consultation_scorer_failure_blob_leak envW dbW 1 "P" "2024-01-01" none
    [imgAW] imgBadW [] 5 "boom" (by decide) (by unfold DB.fresh; decide)
    (by with_unfolding_all decide) (by with_unfolding_all decide) (by decide)
    (by with_unfolding_all decide) (by decide) (by decide)
    (by with_unfolding_all decide)

/-- C4 counterexample: a request whose second image has an empty payload is
rejected with a 400 (InvalidInput), but only after the provisional
consultation was inserted and the first image's blob was written — the
blob write survives the failure, so this InvalidInput rejection is not
free of side effects. -/
theorem invalid_input_after_write :
    (create_consultation envW dbW 1 "2024-01-01" none [imgAW, imgEmptyW] 5).1 =
      Except.error ⟨400, "Image e.png is empty"⟩ ∧
    (create_consultation envW dbW 1 "2024-01-01" none [imgAW, imgEmptyW] 5).2.blobs.length =
      dbW.blobs.length + 1 ∧
    (create_consultation envW dbW 1 "2024-01-01" none [imgAW, imgEmptyW] 5).2.nextId ≠
      dbW.nextId := by
  refine ⟨?_, ?_, ?_⟩ <;> with_unfolding_all decide

/-- C4 amended: the pre-loop InvalidInput rejections (empty image list,
missing filename, non-image content type) happen before any write and
leave the store completely unchanged; the empty-payload and oversize
checks instead run inside the per-image loop, after the provisional
insert: such a rejection deletes the provisional consultation again
(insert followed by delete) but the blobs already written for earlier
images remain. -/
theorem create_consultation_validation_write_boundary :
    (∀ env : Env, ∀ db : DB, ∀ patient_id : Nat, ∀ date : String,
     ∀ notes : Option String, ∀ now : Nat, ¬ date.trim = "" →
       create_consultation env db patient_id date notes [] now =
         (Except.error ⟨400, "At least one image is required"⟩, db)) ∧
    (∀ env : Env, ∀ db : DB, ∀ patient_id : Nat, ∀ date : String,
     ∀ notes : Option String, ∀ images : List UploadFile, ∀ now : Nat,
     ∀ err : HTTPError, ¬ date.trim = "" → images ≠ [] →
       validateImages images = some err →
       create_consultation env db patient_id date notes images now =
         (Except.error err, db)) ∧
    (∀ env : Env, ∀ db : DB, ∀ patient_id : Nat, ∀ pname : String,
     ∀ date : String, ∀ notes : Option String, ∀ pre : List UploadFile,
     ∀ bad : UploadFile, ∀ rest : List UploadFile, ∀ now : Nat, ∀ err : HTTPError,
       env.deleteRaises = false → DB.fresh db → ¬ date.trim = "" →
       validateImages (pre ++ bad :: rest) = none →
       db.patients.find? (fun p => p.1 == patient_id) = some (patient_id, pname) →
       (∀ img ∈ pre, imgOk env img) →
       stepError env bad = some err → err.status = 400 →
       create_consultation env db patient_id date notes (pre ++ bad :: rest) now =
         (Except.error err,
          { db with blobs := db.blobs ++ buildBlobs db.nextId (db.nextId + 1) pre,
                    nextId := db.nextId + 1 + pre.length })) := by
  refine ⟨?_, ?_, ?_⟩
  · intro env db patient_id date notes now hdate
    simp [create_consultation, if_neg hdate]
  · intro env db patient_id date notes images now err hdate hne hval
    simp only [create_consultation, if_neg hdate, if_neg hne, hval]
  · intro env db patient_id pname date notes pre bad rest now err hdel hfresh hdate
      hval hpat hpre hstep _
    exact create_consultation_fail_eq env db patient_id pname date notes pre bad
      rest now err hdel hfresh hdate hval hpat hpre hstep

/-- Witness for the amended C4, instantiating all three parts: the empty
image list and a PDF upload are rejected with the store unchanged, while
an empty payload in the second image is rejected only after the first
image's blob was written. -/
theorem create_consultation_validation_write_boundary_witness :
    create_consultation envW dbW 1 "2024-01-01" none [] 5 =
      (Except.error ⟨400, "At least one image is required"⟩, dbW) ∧
    create_consultation envW dbW 1 "2024-01-01" none [imgPdfW] 5 =
      (Except.error ⟨400, "File a.pdf is not a valid image"⟩, dbW) ∧
    create_consultation envW dbW 1 "2024-01-01" none [imgAW, imgEmptyW] 5 =
      (Except.error ⟨400, "Image e.png is empty"⟩,
       { dbW with blobs := dbW.blobs ++ buildBlobs dbW.nextId (dbW.nextId + 1) [imgAW],
                  nextId := dbW.nextId + 1 + 1 }) :=
  ⟨create_consultation_validation_write_boundary.1 envW dbW 1 "2024-01-01" none 5
    (by with_unfolding_all decide),
   create_consultation_validation_write_boundary.2.1 envW dbW 1 "2024-01-01" none
    [imgPdfW] 5 ⟨400, "File a.pdf is not a valid image"⟩
    (by with_unfolding_all decide) (by decide) (by with_unfolding_all decide),
   create_consultation_validation_write_boundary.2.2 envW dbW 1 "P" "2024-01-01"
    none [imgAW] imgEmptyW [] 5 ⟨400, "Image e.png is empty"⟩
    (by decide) (by unfold DB.fresh; decide) (by with_unfolding_all decide)
    (by with_unfolding_all decide) (by decide) (by with_unfolding_all decide)
    (by with_unfolding_all decide) (by decide)⟩

/-- C6 (supporting theorem for a code/spec divergence): the system does
write standalone image-analysis documents and does serve consultation
reads from them.  `upload_consultation_image` inserts a record into the
separate top-level `image_analyses` collection, and `get_consultation`
falls back to that collection when the embedded list is empty — here the
read of consultation 50 (whose embedded list is empty) returns image 77
taken from the separate collection. -/
theorem standalone_image_analyses_used :
    (upload_consultation_image envW dbSepW 50 imgAW "Unknown" 0 0 6).2.image_analyses.length =
      dbSepW.image_analyses.length + 1 ∧
    consultEmptyW.image_analyses = [] ∧
    (get_consultation dbSepW 50).toOption.map
      (fun r => r.images.map (fun a => a.image_id)) = some [77] := by
  refine ⟨?_, ?_, ?_⟩ <;> with_unfolding_all decide

/-- C8: `delete_consultation` fails with 404 and leaves the store untouched
when the consultation is absent; when it is present the call succeeds, the
document is gone afterwards (for any pattern of per-blob delete failures,
which are never fatal), and a second call on the same id yields 404 while
leaving the store exactly as the first call left it. -/
theorem delete_consultation_idempotent (env : Env) (db : DB) (cid : Nat) :
    (lookupConsultation db cid = none →
      delete_consultation env db cid =
        (Except.error ⟨404, "Consultation not found"⟩, db)) ∧
    (∀ doc, lookupConsultation db cid = some doc →
      (delete_consultation env db cid).1 = Except.ok () ∧
      lookupConsultation (delete_consultation env db cid).2 cid = none ∧
      delete_consultation env (delete_consultation env db cid).2 cid =
        (Except.error ⟨404, "Consultation not found"⟩,
         (delete_consultation env db cid).2)) := by
  constructor
  · intro h
    simp only [delete_consultation, h]
  · intro doc h
    rw [delete_consultation_some env db cid doc h]
    refine ⟨rfl, lookup_deletedDB env db cid doc, ?_⟩
    simp only [delete_consultation, lookup_deletedDB env db cid doc]

/-- Witness for C8: deleting the existing consultation 50 succeeds and a
second delete returns 404 without further changes; deleting a
non-existent id returns 404 with the store unchanged. -/
theorem delete_consultation_idempotent_witness :
    ((delete_consultation envW dbDelW 50).1 = Except.ok () ∧
     lookupConsultation (delete_consultation envW dbDelW 50).2 50 = none ∧
     delete_consultation envW (delete_consultation envW dbDelW 50).2 50 =
       (Except.error ⟨404, "Consultation not found"⟩,
        (delete_consultation envW dbDelW 50).2)) ∧
    delete_consultation envW dbW 50 =
      (Except.error ⟨404, "Consultation not found"⟩, dbW) :=
  ⟨(delete_consultation_idempotent envW dbDelW 50).2 consultFullW
    (by with_unfolding_all decide),
   (delete_consultation_idempotent envW dbW 50).1 (by with_unfolding_all decide)⟩

/-- C9 counterexample: reading consultation 50, whose patient does not
exist, succeeds — but the patient-derived field defaults to the
placeholder "Unknown", not to empty as the claim states. -/
theorem get_consultation_unknown_placeholder :
    (get_consultation dbOrphanW 50).toOption.map (fun r => r.patient_name) =
      some "Unknown" ∧
    ¬ ("Unknown" = "") := by
  constructor
  · with_unfolding_all decide
  · decide

/-- C9 amended: reading a consultation by id never fails due to enrichment
gaps: if the referenced patient is absent the read still succeeds, with
the patient name defaulted to the placeholder "Unknown" (not empty); and
each embedded image analysis whose blob is missing is logged and omitted
from the response rather than failing the read. -/
theorem get_consultation_enrichment_tolerant (db : DB) (cid : Nat)
    (doc : ConsultationDoc) (h : lookupConsultation db cid = some doc) :
    ∃ resp, get_consultation db cid = Except.ok resp ∧
      (db.patients.find? (fun p => p.1 == doc.patient_id) = none →
        resp.patient_name = "Unknown") ∧
      (doc.image_analyses ≠ [] →
        resp.images = (doc.image_analyses.filter
          (fun a => blobExists db a.image_id)).map (embeddedEntry cid)) := by
  simp only [get_consultation, h]
  by_cases hemp : doc.image_analyses = []
  · rw [if_pos hemp]
    refine ⟨_, rfl, ?_, ?_⟩
    · intro hp; simp [hp]
    · intro hcontra; exact absurd hemp hcontra
  · rw [if_neg hemp]
    refine ⟨_, rfl, ?_, ?_⟩
    · intro hp; simp [hp]
    · intro _; rfl

/-- Witness for the amended C9: consultation 50 references the missing
patient 9 and embeds analyses for blob 60 (present) and blob 61 (absent);
the read succeeds, names the patient "Unknown", and omits image 61. -/
theorem get_consultation_enrichment_tolerant_witness :
    ∃ resp, get_consultation dbOrphanW 50 = Except.ok resp ∧
      (dbOrphanW.patients.find? (fun p => p.1 == consultOrphanW.patient_id) = none →
        resp.patient_name = "Unknown") ∧
      (consultOrphanW.image_analyses ≠ [] →
        resp.images = (consultOrphanW.image_analyses.filter
          (fun a => blobExists dbOrphanW a.image_id)).map (embeddedEntry 50)) :=
  get_consultation_enrichment_tolerant dbOrphanW 50 consultOrphanW
    (by with_unfolding_all decide)

/-- C10: a successful consultation update rewrites only `patient_id`,
`date`, `notes` and `updated_at`; the stored document keeps its
`diagnosis`, `probability`, embedded `image_analyses` and `created_at`
unchanged, and no other collection or document is touched. -/
theorem update_consultation_frame
    (db : DB) (cid patient_id : Nat) (date : String) (notes : Option String)
    (now : Nat) (doc : ConsultationDoc) (c2 : ConsultationDoc) (db2 : DB)
    (hdoc : lookupConsultation db cid = some doc)
    (hok : update_consultation db cid patient_id date notes now =
      (Except.ok c2, db2)) :
    c2.diagnosis = doc.diagnosis ∧
    c2.probability = doc.probability ∧
    c2.image_analyses = doc.image_analyses ∧
    c2.created_at = doc.created_at ∧
    c2.patient_id = patient_id ∧
    c2.date = date ∧
    c2.notes = cleanNotes notes ∧
    c2.updated_at = some now ∧
    db2.patients = db.patients ∧
    db2.blobs = db.blobs ∧
    db2.image_analyses = db.image_analyses ∧
    db2.nextId = db.nextId ∧
    lookupConsultation db2 cid = some c2 ∧
    db2.consultations.length = db.consultations.length ∧
    (∀ p ∈ db.consultations, p.1 ≠ cid → p ∈ db2.consultations) := by
  simp only [update_consultation, hdoc] at hok
  cases hpat : db.patients.find? (fun p => p.1 == patient_id) with
  | none => rw [hpat] at hok; exact absurd (congrArg Prod.fst hok) (by simp)
  | some patient =>
    rw [hpat] at hok
    by_cases hch : updatedDoc doc patient_id date notes now = doc
    · rw [if_pos hch] at hok
      exact absurd (congrArg Prod.fst hok) (by simp)
    · rw [if_neg hch] at hok
      have hc2 : updatedDoc doc patient_id date notes now = c2 :=
        Except.ok.inj (congrArg Prod.fst hok)
      have hdb2 : setConsultation db cid (updatedDoc doc patient_id date notes now) = db2 :=
        congrArg Prod.snd hok
      subst hc2
      subst hdb2
      refine ⟨rfl, rfl, rfl, rfl, rfl, rfl, rfl, rfl, rfl, rfl, rfl, rfl, ?_, ?_, ?_⟩
      · refine lookup_setConsultation db cid _ ?_
        unfold lookupConsultation at hdoc
        obtain ⟨pr, hfind, hpr⟩ := Option.map_eq_some'.mp hdoc
        rw [hfind]
        rfl
      · simp [setConsultation]
      · intro p hp hne
        have hf : ((p.1 == cid) = false) := by simp [hne]
        have hmm := List.mem_map_of_mem (fun q : Nat × ConsultationDoc =>
          if q.1 == cid then (q.1, updatedDoc doc patient_id date notes now) else q) hp
        simp only [hf, Bool.false_eq_true, if_false] at hmm
        simpa [setConsultation] using hmm

/-- Witness for C10: updating consultation 50 to a new date and notes
succeeds and preserves diagnosis, probability, image list and creation
time. -/
theorem update_consultation_frame_witness :
    updatedDocW.diagnosis = consultFullW.diagnosis ∧
    updatedDocW.probability = consultFullW.probability ∧
    updatedDocW.image_analyses = consultFullW.image_analyses ∧
    updatedDocW.created_at = consultFullW.created_at ∧
    updatedDocW.patient_id = 1 ∧
    updatedDocW.date = "2025-01-02" ∧
    updatedDocW.notes = cleanNotes (some "note") ∧
    updatedDocW.updated_at = some 7 ∧
    (setConsultation dbDelW 50 updatedDocW).patients = dbDelW.patients ∧
    (setConsultation dbDelW 50 updatedDocW).blobs = dbDelW.blobs ∧
    (setConsultation dbDelW 50 updatedDocW).image_analyses = dbDelW.image_analyses ∧
    (setConsultation dbDelW 50 updatedDocW).nextId = dbDelW.nextId ∧
    lookupConsultation (setConsultation dbDelW 50 updatedDocW) 50 = some updatedDocW ∧
    (setConsultation dbDelW 50 updatedDocW).consultations.length =
      dbDelW.consultations.length ∧
    (∀ p ∈ dbDelW.consultations, p.1 ≠ 50 →
      p ∈ (setConsultation dbDelW 50 updatedDocW).consultations) :=
  update_consultation_frame dbDelW 50 1 "2025-01-02" (some "note") 7
    consultFullW updatedDocW (setConsultation dbDelW 50 updatedDocW)
    (by with_unfolding_all decide) (by with_unfolding_all decide)

end StrokeApp
